import Mathlib

/-!
Verification of the transcript extraction cascade of `html_unified.py`
(class `TranscriptExtractor`).

The BeautifulSoup queries that the cascade performs are modelled as fields
of a `Soup` structure holding the query results (the selector engine is an
external library; the cascade only consumes its results).  The Python
string primitives used by the source (`str.strip`, `str.lower`, `in`,
`str.replace`, and the `re` scans of `extract_from_scripts` and
`extract_transcript_pattern`) are implemented over `List Char`.
Whitespace and case mapping use the ASCII subsets, which is all that the
selectors, the denylist entries and the regexes in the source exercise.
-/

namespace SA

set_option maxRecDepth 4000

/-- Python whitespace test (ASCII part of `str.isspace`): space, tab,
newline, carriage return, vertical tab, form feed. -/
def isPyWs (c : Char) : Bool :=
  decide (c.toNat = 32 ∨ c.toNat = 9 ∨ c.toNat = 10 ∨ c.toNat = 13 ∨
          c.toNat = 11 ∨ c.toNat = 12)

/-- Python `str.strip()`: drop leading and trailing whitespace. -/
def pyStrip (s : String) : String :=
  ⟨((s.data.dropWhile isPyWs).reverse.dropWhile isPyWs).reverse⟩

/-- ASCII lower-casing of one character (what `str.lower` and the
`re.IGNORECASE` flag do on the ASCII range). -/
def lcChar (c : Char) : Char :=
  if 65 ≤ c.toNat ∧ c.toNat ≤ 90 then Char.ofNat (c.toNat + 32) else c

/-- Python `str.lower()` (ASCII model). -/
def pyLower (s : String) : String := ⟨s.data.map lcChar⟩

/-- Does `needle` occur at the head of the second list? -/
def headMatch : List Char → List Char → Bool
  | [], _ => true
  | _ :: _, [] => false
  | n :: ns, h :: hs => n = h && headMatch ns hs

/-- Python substring test `needle in hay` over char lists. -/
def subMatch (needle : List Char) : List Char → Bool
  | [] => headMatch needle []
  | h :: hs => headMatch needle (h :: hs) || subMatch needle hs

/-- Python `needle in hay` on strings. -/
def strContains (hay needle : String) : Bool := subMatch needle.data hay.data

/-- Python `"\n\n".join(xs)`. -/
def joinBlankLine (xs : List String) : String := String.intercalate "\n\n" xs

/-- Match an exact literal at the head and drop it (case-sensitive). -/
def dropLit : List Char → List Char → Option (List Char)
  | [], s => some s
  | _ :: _, [] => none
  | n :: ns, h :: hs => if n = h then dropLit ns hs else none

/-- Match an exact literal at the head and drop it, comparing characters
case-insensitively (used for regexes compiled with `re.IGNORECASE`). -/
def dropLitCi : List Char → List Char → Option (List Char)
  | [], s => some s
  | _ :: _, [] => none
  | n :: ns, h :: hs => if lcChar n = lcChar h then dropLitCi ns hs else none

/-- One left-to-right non-overlapping replacement pass, fuelled by the
input length; implements Python `s.replace(old, new)` for nonempty `old`. -/
def replaceAux (old new : List Char) : Nat → List Char → List Char
  | _, [] => []
  | 0, s => s
  | fuel + 1, c :: cs =>
    if headMatch old (c :: cs) then
      new ++ replaceAux old new fuel (List.drop (old.length - 1) cs)
    else
      c :: replaceAux old new fuel cs

/-- Python `s.replace(old, new)` (nonempty `old`). -/
def pyReplace (s old new : String) : String :=
  ⟨replaceAux old.data new.data s.data.length s.data⟩

/-! ### The `re` scans of `extract_from_scripts` (src lines 192-222) -/

/-- Literal `<script` of the script-block regex. -/
def scriptOpenLit : List Char := "<script".data

/-- Literal `</script>` of the script-block regex. -/
def scriptCloseLit : List Char := "</script>".data

/-- Split at the first occurrence of a literal: returns the part before it
and the part after it.  This is the lazy `(.*?)lit` step of the regex. -/
def splitAtLit (lit : List Char) : List Char → Option (List Char × List Char)
  | [] => none
  | c :: cs =>
    if headMatch lit (c :: cs) then some ([], List.drop (lit.length - 1) cs)
    else
      match splitAtLit lit cs with
      | some (pre, post) => some (c :: pre, post)
      | none => none

/-- Try to match `<script[^>]*>(.*?)</script>` (with `re.DOTALL`) at the
head of the input; on success return the captured group and the rest of
the input after the whole match. -/
def matchScriptAt (s : List Char) : Option (List Char × List Char) :=
  match dropLit scriptOpenLit s with
  | none => none
  | some r1 =>
    match r1.dropWhile (fun c => !(c = '>')) with
    | [] => none
    | _ :: r2 => splitAtLit scriptCloseLit r2

/-- Fuelled scan loop of `re.findall` for the script-block regex. -/
def scriptScanAux : Nat → List Char → List String
  | _, [] => []
  | 0, _ => []
  | fuel + 1, c :: cs =>
    match matchScriptAt (c :: cs) with
    | some (cap, rest) => (⟨cap⟩ : String) :: scriptScanAux fuel rest
    | none => scriptScanAux fuel cs

/-- `script_pattern.findall(html_content)` where `script_pattern` is
`re.compile(r'<script[^>]*>(.*?)</script>', re.DOTALL)` (src line 195). -/
def scriptFindAll (html : String) : List String :=
  scriptScanAux html.data.length html.data

/-- Literal `"transcript"` (with the quotes) of the JSON-fragment regex. -/
def transcriptKeyLit : List Char := "\"transcript\"".data

/-- `json_pattern.search(script)` as a Boolean, where `json_pattern` is
`re.compile(r'\x7b[^\x7d]*"transcript"[^\x7d]*\x7d')` (src line 196): some
brace-opened run of non-closing-brace characters contains the quoted key
`transcript` and is terminated by a closing brace. -/
def hasTranscriptJson : List Char → Bool
  | [] => false
  | c :: cs =>
    (c = '\x7b' &&
      subMatch transcriptKeyLit (cs.takeWhile (fun x => !(x = '\x7d'))) &&
      !((cs.dropWhile (fun x => !(x = '\x7d'))).isEmpty))
    || hasTranscriptJson cs

/-- Literal `"content"` (with the quotes) of the content regex. -/
def contentKeyLit : List Char := "\"content\"".data

/-- Literal `"text"` (with the quotes) of the text regex. -/
def textKeyLit : List Char := "\"text\"".data

/-- Try to match `key\s*:\s*"([^"]*)"` at the head of the input; on
success return the captured group (src lines 197-198). -/
def kvMatchAt (key : List Char) (s : List Char) : Option String :=
  match dropLit key s with
  | none => none
  | some r1 =>
    match r1.dropWhile isPyWs with
    | ':' :: r3 =>
      match r3.dropWhile isPyWs with
      | '"' :: r5 =>
        if (r5.dropWhile (fun c => !(c = '"'))).isEmpty then none
        else some (⟨r5.takeWhile (fun c => !(c = '"'))⟩ : String)
      | _ => none
    | _ => none

/-- `pattern.search(s)`: leftmost match of `key\s*:\s*"([^"]*)"`,
returning the captured group. -/
def kvSearch (key : List Char) : List Char → Option String
  | [] => none
  | c :: cs =>
    match kvMatchAt key (c :: cs) with
    | some v => some v
    | none => kvSearch key cs

/-- `content.replace('\\"', '"').replace('\\n', '\n')` (src lines 211,
219): first unescape escaped double quotes, then escaped newlines, and
nothing else. -/
def unescapeJson (s : String) : String :=
  pyReplace (pyReplace s "\\\"" "\"") "\\n" "\n"

/-- The `for script in script_matches` loop of `extract_from_scripts`
(src lines 202-220): the first script block whose text matches the
JSON-fragment pattern and yields a content or text capture ends the scan. -/
def scanScripts : List String → String
  | [] => ""
  | scr :: rest =>
    if hasTranscriptJson scr.data then
      match kvSearch contentKeyLit scr.data with
      | some v => unescapeJson v
      | none =>
        match kvSearch textKeyLit scr.data with
        | some v => unescapeJson v
        | none => scanScripts rest
    else scanScripts rest

/-- `TranscriptExtractor.extract_from_scripts` (src lines 192-222). -/
def extract_from_scripts (html_content : String) : String :=
  scanScripts (scriptFindAll html_content)

/-! ### The speaker-pattern scan of `extract_transcript_pattern`
(src lines 234-247) -/

/-- Literal `<strong>` of the speaker regex. -/
def strongOpenLit : List Char := "<strong>".data

/-- Literal `</strong>` of the speaker regex. -/
def strongCloseLit : List Char := "</strong>".data

/-- Try to match `<strong>([^<:]+):</strong>([^<]+)` (with
`re.IGNORECASE`) at the head of the input; on success return the two
captured groups and the rest of the input after the match. -/
def matchSpeakerAt (s : List Char) : Option (String × String × List Char) :=
  match dropLitCi strongOpenLit s with
  | none => none
  | some r1 =>
    let g1 := r1.takeWhile (fun c => !(c = '<') && !(c = ':'))
    match r1.dropWhile (fun c => !(c = '<') && !(c = ':')) with
    | ':' :: r2 =>
      if g1.isEmpty then none
      else
        match dropLitCi strongCloseLit r2 with
        | none => none
        | some r3 =>
          let g2 := r3.takeWhile (fun c => !(c = '<'))
          if g2.isEmpty then none
          else some ((⟨g1⟩ : String), (⟨g2⟩ : String),
                     r3.dropWhile (fun c => !(c = '<')))
    | _ => none

/-- Fuelled scan loop of `re.findall` for the speaker regex. -/
def speakerScanAux : Nat → List Char → List (String × String)
  | _, [] => []
  | 0, _ => []
  | fuel + 1, c :: cs =>
    match matchSpeakerAt (c :: cs) with
    | some (g1, g2, rest) => (g1, g2) :: speakerScanAux fuel rest
    | none => speakerScanAux fuel cs

/-- `speaker_pattern.findall(html_content)` where `speaker_pattern` is
`re.compile(r'<strong>([^<:]+):</strong>([^<]+)', re.IGNORECASE)`
(src lines 237-238). -/
def speakerFindAll (html : String) : List (String × String) :=
  speakerScanAux html.data.length html.data

/-- `TranscriptExtractor.extract_transcript_pattern` (src lines 234-247):
only accept the speaker pattern when more than 10 matches were found;
each match becomes the line `f"{speaker.strip()}: {text.strip()}"`. -/
def extract_transcript_pattern (html_content : String) : String :=
  let ms := speakerFindAll html_content
  if ¬ ms.isEmpty ∧ 10 < ms.length then
    joinBlankLine (ms.map (fun m => pyStrip m.1 ++ ": " ++ pyStrip m.2))
  else ""

/-! ### The parsed-document model -/

/-- A parsed element as the cascade consumes it: its tag name, its
`.text` (concatenated descendant text), and the raw `.text` of each `p`
element returned by `elem.select("p")`, in document order. -/
structure Elem where
  name : String
  text : String
  paragraphs : List String
  deriving Repr, DecidableEq

/-- Tree context of an element matched by an anchor query
(`qa_sections[0]`, `transcript_headers[0]`): its parent element, the
parent's following siblings (`parent.find_next_sibling()` chain) in
document order, and the element's own following siblings
(`elem.find_next_sibling()` chain) in document order. -/
structure Anchor where
  parent : Elem
  parentSiblings : List Elem
  anchorSiblings : List Elem
  deriving Repr, DecidableEq

/-- The results of every BeautifulSoup query `extract_content` and the
metadata extractors perform on one parsed document.  `selectOneResult`
models `soup.select_one(sel)`; the list fields model the `soup.select`
calls named per field, each in document order. -/
structure Soup where
  /-- `soup.select_one(sel)` for any selector string `sel`. -/
  selectOneResult : String → Option Elem
  /-- `soup.select(".transcript-section, .transcript-text, .sa-transcript,
  [data-id='sa-transcript'], [id='sa-transcript']")` (src line 115). -/
  transcriptSections : List Elem
  /-- `soup.select("strong:contains('Question-and-Answer'), h2:contains('Q&A'),
  h3:contains('Questions and Answers')")` (src line 120), each match with
  its tree context. -/
  qaSections : List Anchor
  /-- `soup.select("h2:contains('Transcript'), h2:contains('Earnings Call'),
  h3:contains('Transcript'), h3:contains('Earnings Call')")` (src line 175),
  each match with its tree context. -/
  transcriptHeaders : List Anchor
  /-- `soup.select("pre")` (src line 226). -/
  preElements : List Elem
  /-- `soup.select("p")` (src line 106). -/
  allParagraphs : List Elem

/-! ### The extractors of `TranscriptExtractor` -/

/-- The selector list of `extract_title` (src line 42). -/
def title_selectors : List String :=
  ["h1", "h1.title", "[data-test-id='post-title']", ".title"]

/-- The `for selector in title_selectors` loop of `extract_title`
(src lines 44-49): the first selector with a match returns that
element's stripped text (bs4 tags are always truthy). -/
def titleGo (soup : Soup) : List String → String
  | [] => "Title not found"
  | sel :: rest =>
    match soup.selectOneResult sel with
    | some e => pyStrip e.text
    | none => titleGo soup rest

/-- `TranscriptExtractor.extract_title` (src lines 40-49). -/
def extract_title (soup : Soup) : String := titleGo soup title_selectors

/-- First selector of a list that yields a `select_one` match. -/
def selectFirst (soup : Soup) : List String → Option Elem
  | [] => none
  | sel :: rest =>
    match soup.selectOneResult sel with
    | some e => some e
    | none => selectFirst soup rest

/-- `TranscriptExtractor.extract_transcript_sections` (src lines
112-132): join the transcript-marker elements' stripped texts; otherwise
anchor at the first Q&A marker's parent and walk `find_next_sibling`
from it, collecting the stripped text of every `div` or `section`. -/
def extract_transcript_sections (soup : Soup) : String :=
  if ¬ soup.transcriptSections.isEmpty then
    joinBlankLine (soup.transcriptSections.map (fun s => pyStrip s.text))
  else
    match soup.qaSections with
    | [] => ""
    | a :: _ =>
      let content_parts := (a.parent :: a.parentSiblings).filterMap
        (fun e => if e.name = "div" ∨ e.name = "section"
                  then some (pyStrip e.text) else none)
      if ¬ content_parts.isEmpty then joinBlankLine content_parts else ""

/-- The container selector list of `extract_from_content_containers`
(src lines 136-145). -/
def container_selectors : List String :=
  ["div[data-test-id='content-container']",
   ".paywall-content",
   "#content-container",
   ".sa-art",
   "article.sa-content",
   ".article-content",
   "#a-body",
   "div.media-article-content"]

/-- The denylist of boilerplate substrings of
`extract_from_content_containers` (src lines 162-163). -/
def denylist : List String :=
  ["disclosure:", "disclosure :", "©", "all rights reserved",
   "seeking alpha", "editor's note", "make the most of premium"]

/-- The paragraph filter of `extract_from_content_containers` (src line
161): `p_text and len(p_text) > 20 and not any(x in p_text.lower() ...)`
where `p_text = p.text.strip()`. -/
def paraKeep (praw : String) : Bool :=
  let t := pyStrip praw
  !(t = "") && 20 < t.length &&
    !(denylist.any (fun x => strContains (pyLower t) x))

/-- The paragraph comprehension of `extract_from_content_containers`
(src lines 157-165): surviving paragraphs' stripped texts, in order. -/
def filterParas (ps : List String) : List String :=
  ps.filterMap (fun p => if paraKeep p then some (pyStrip p) else none)

/-- The `for selector in container_selectors` loop of
`extract_from_content_containers` (src lines 147-168): skip premium-only
teaser containers, filter the paragraphs of an accepted container, and
return the joined survivors of the first container yielding any. -/
def containersGo (soup : Soup) : List String → String
  | [] => ""
  | sel :: rest =>
    match soup.selectOneResult sel with
    | none => containersGo soup rest
    | some container =>
      if strContains container.text "Make the most of Premium" ∧
         container.text.length < 100 then
        containersGo soup rest
      else if ¬ container.paragraphs.isEmpty then
        (if ¬ (filterParas container.paragraphs).isEmpty then
          joinBlankLine (filterParas container.paragraphs)
        else containersGo soup rest)
      else containersGo soup rest

/-- `TranscriptExtractor.extract_from_content_containers`
(src lines 134-170). -/
def extract_from_content_containers (soup : Soup) : String :=
  containersGo soup container_selectors

/-- `TranscriptExtractor.extract_after_header_patterns` (src lines
172-190): walk the first transcript header's following siblings and
collect the stripped text of every `p`. -/
def extract_after_header_patterns (soup : Soup) : String :=
  match soup.transcriptHeaders with
  | [] => ""
  | h :: _ =>
    let paragraphs := h.anchorSiblings.filterMap
      (fun e => if e.name = "p" then some (pyStrip e.text) else none)
    if ¬ paragraphs.isEmpty then joinBlankLine paragraphs else ""

/-- `TranscriptExtractor.extract_from_pre_elements` (src lines 224-232):
join all `pre` elements whose stripped text exceeds 500 characters. -/
def extract_from_pre_elements (soup : Soup) : String :=
  match soup.preElements with
  | [] => ""
  | pres =>
    let pre_texts := pres.filterMap
      (fun p => let t := pyStrip p.text
                if 500 < t.length then some t else none)
    if ¬ pre_texts.isEmpty then joinBlankLine pre_texts else ""

/-- The last-resort tail of `extract_content` (src lines 105-110): join
all document paragraphs whose stripped text exceeds 20 characters when
any paragraph element exists, else the sentinel failure string. -/
def fallbackResult (soup : Soup) : String :=
  if ¬ soup.allParagraphs.isEmpty then
    joinBlankLine (soup.allParagraphs.filterMap
      (fun p => let t := pyStrip p.text
                if 20 < t.length then some t else none))
  else "Content extraction failed"

/-- `TranscriptExtractor.extract_content` (src lines 73-110): the
six-strategy cascade, each result accepted by the test
`if content and len(content) > 500`. -/
def extract_content (soup : Soup) (html_content : String) : String :=
  let c1 := extract_transcript_sections soup
  if c1 ≠ "" ∧ 500 < c1.length then c1 else
  let c2 := extract_from_content_containers soup
  if c2 ≠ "" ∧ 500 < c2.length then c2 else
  let c3 := extract_after_header_patterns soup
  if c3 ≠ "" ∧ 500 < c3.length then c3 else
  let c4 := extract_from_scripts html_content
  if c4 ≠ "" ∧ 500 < c4.length then c4 else
  let c5 := extract_from_pre_elements soup
  if c5 ≠ "" ∧ 500 < c5.length then c5 else
  let c6 := extract_transcript_pattern html_content
  if c6 ≠ "" ∧ 500 < c6.length then c6 else
  fallbackResult soup

/-- The six strategy results in cascade order. -/
def strategyResults (soup : Soup) (html_content : String) : List String :=
  [extract_transcript_sections soup,
   extract_from_content_containers soup,
   extract_after_header_patterns soup,
   extract_from_scripts html_content,
   extract_from_pre_elements soup,
   extract_transcript_pattern html_content]

/-- First candidate of a list whose length exceeds 500 characters. -/
def firstOver500 : List String → Option String
  | [] => none
  | c :: cs => if 500 < c.length then some c else firstOver500 cs

/-! ### Claim-side definitions (following the spec's words, for the
refinement comparisons) -/

/-- Follows the spec's words for `extract_title`: "Returns the first
non-empty matched element's trimmed text, else sentinel"; an empty match
is passed over. -/
def titleClaimGo (soup : Soup) : List String → String
  | [] => "Title not found"
  | sel :: rest =>
    match soup.selectOneResult sel with
    | some e => if pyStrip e.text ≠ "" then pyStrip e.text else titleClaimGo soup rest
    | none => titleClaimGo soup rest

/-- The title extractor as the spec describes it. -/
def extract_title_claim (soup : Soup) : String :=
  titleClaimGo soup title_selectors

/-- Follows the spec's words for the Q&A branch of strategy 1: collect
text only from the following sibling elements (of container type) of the
anchor itself. -/
def qaCollectClaim (a : Anchor) : List String :=
  a.anchorSiblings.filterMap
    (fun e => if e.name = "div" ∨ e.name = "section"
              then some (pyStrip e.text) else none)

/-! ### Concrete documents used as witnesses and counterexamples -/

/-- A `select_one` that matches nothing. -/
def noneSelect : String → Option Elem := fun _ => none

/-- A document with no matches at all. -/
def emptySoup : Soup := ⟨noneSelect, [], [], [], [], []⟩

/-- A document whose only feature is one short paragraph element. -/
def shortParaSoup : Soup :=
  ⟨noneSelect, [], [], [], [], [⟨"p", "too short", []⟩]⟩

/-- A 600-character text block. -/
def bigText : String := ⟨List.replicate 600 'a'⟩

/-- A document with one transcript-section marker holding `bigText`. -/
def bigSectionSoup : Soup :=
  ⟨noneSelect, [⟨"div", bigText, []⟩], [], [], [], []⟩

/-- The first container selector (head of `container_selectors`). -/
def containerSel1 : String := "div[data-test-id='content-container']"

/-- The tail of `container_selectors` after its head. -/
def containerSelsRest : List String :=
  [".paywall-content",
   "#content-container",
   ".sa-art",
   "article.sa-content",
   ".article-content",
   "#a-body",
   "div.media-article-content"]

/-- A 95-character container text starting with the premium teaser
phrase (24 characters of phrase plus 71 of filler). -/
def teaser95Text : String :=
  "Make the most of Premium" ++ (⟨List.replicate 71 'x'⟩ : String)

/-- The paywall-teaser container of the boundary scenario. -/
def teaser95 : Elem := ⟨"div", teaser95Text, []⟩

/-- A document whose first container selector yields the 95-character
teaser container. -/
def soup95 : Soup :=
  ⟨fun s => if s = containerSel1 then some teaser95 else none,
   [], [], [], [], []⟩

/-- A 104-character container text starting with the same teaser phrase
followed by filler standing for real content. -/
def teaserLongText : String :=
  "Make the most of Premium" ++ (⟨List.replicate 80 'x'⟩ : String)

/-- A real paragraph surviving the length/denylist filter. -/
def longParaText : String :=
  "This paragraph easily exceeds twenty characters of real content."

/-- The long container: same teaser phrase, but total text over 100
characters and one real paragraph. -/
def teaserLong : Elem := ⟨"div", teaserLongText, [longParaText]⟩

/-- A document whose first container selector yields the long container. -/
def soupLong : Soup :=
  ⟨fun s => if s = containerSel1 then some teaserLong else none,
   [], [], [], [], []⟩

/-- An `h1` whose text is whitespace only. -/
def wsTitleElem : Elem := ⟨"h1", "   ", []⟩

/-- A `.title` element with a real title. -/
def realTitleElem : Elem := ⟨"div", "Real Title", []⟩

/-- A document where `h1` matches a whitespace-only element and `.title`
matches a real title. -/
def titleCexSoup : Soup :=
  ⟨fun s => if s = "h1" then some wsTitleElem
            else if s = ".title" then some realTitleElem else none,
   [], [], [], [], []⟩

/-- The parent `div` enclosing a Q&A anchor. -/
def qaParentElem : Elem := ⟨"div", "Question-and-Answer Session", []⟩

/-- A Q&A anchor whose parent is `qaParentElem` and which has no
following siblings of its own; the parent has none either. -/
def qaCexAnchor : Anchor := ⟨qaParentElem, [], []⟩

/-- A document with no transcript-section markers and one Q&A anchor. -/
def qaCexSoup : Soup := ⟨noneSelect, [], [qaCexAnchor], [], [], []⟩

/-- One speaker segment of the speaker-pattern boundary documents. -/
def speakerSeg : String := "<strong>Alice:</strong> words and words "

/-- Raw markup with exactly 10 speaker-pattern matches. -/
def html10 : String := ⟨(List.replicate 10 speakerSeg.data).flatten⟩

/-- Raw markup with exactly 11 speaker-pattern matches. -/
def html11 : String := ⟨(List.replicate 11 speakerSeg.data).flatten⟩

/-- The reconstructed line of one speaker segment. -/
def speakerLine : String := "Alice: words and words"

/-- The script block text of the embedded-script witness document. -/
def scrInner : String :=
  "var d = \x7b\"transcript\": true, \"content\":\"Line1\\nHe said \\\"hi\\\"\"\x7d;"

/-- Raw markup holding one script block with a transcript JSON fragment
and a content key whose value uses both handled escapes. -/
def scriptHtml : String :=
  "<div>x</div><script>" ++ scrInner ++ "</script>"

/-! ## Helper lemmas -/

/-- A string longer than 500 characters is not empty. -/
theorem ne_empty_of_length_gt (s : String) (h : 500 < s.length) : s ≠ "" := by
  intro he
  rw [he] at h
  exact absurd h (by decide)

/-- The acceptance test `if content and len(content) > 500` of the
cascade is equivalent to the pure length test. -/
theorem gate_ite (c X Y : String) :
    (if c ≠ "" ∧ 500 < c.length then X else Y) =
      if 500 < c.length then X else Y := by
  by_cases h : 500 < c.length
  · rw [if_pos h, if_pos ⟨ne_empty_of_length_gt c h, h⟩]
  · rw [if_neg h, if_neg (fun hc => h hc.2)]

/-- Unfolding step for `firstOver500` through `Option.getD`. -/
theorem firstOver500_getD_cons (c : String) (cs : List String) (d : String) :
    (firstOver500 (c :: cs)).getD d =
      if 500 < c.length then c else (firstOver500 cs).getD d := by
  by_cases h : 500 < c.length <;> simp [firstOver500, h]

/-- The cascade equals the first strategy result over 500 characters,
else the all-paragraphs fallback. -/
theorem extract_content_eq (soup : Soup) (html : String) :
    extract_content soup html =
      (firstOver500 (strategyResults soup html)).getD (fallbackResult soup) := by
  simp only [extract_content, strategyResults, gate_ite, firstOver500_getD_cons]
  rfl

/-- If every candidate fails the length gate, no candidate is accepted. -/
theorem firstOver500_none (cs : List String)
    (h : ∀ c ∈ cs, ¬ 500 < c.length) : firstOver500 cs = none := by
  induction cs with
  | nil => rfl
  | cons a as ih =>
    simp only [firstOver500]
    rw [if_neg (h a (by simp))]
    exact ih (fun c hc => h c (by simp [hc]))

/-- Acceptance is decided by position: once an over-threshold candidate
follows only under-threshold ones, it is returned whatever comes later. -/
theorem firstOver500_skip (pre post : List String) (r : String)
    (hpre : ∀ c ∈ pre, ¬ 500 < c.length) (hr : 500 < r.length) :
    firstOver500 (pre ++ r :: post) = some r := by
  induction pre with
  | nil => simp [firstOver500, hr]
  | cons a as ih =>
    simp only [List.cons_append, firstOver500]
    rw [if_neg (hpre a (by simp))]
    exact ih (fun c hc => hpre c (by simp [hc]))

/-- The title loop returns the first `select_one` match's stripped text. -/
theorem titleGo_eq_selectFirst (soup : Soup) (sels : List String) :
    titleGo soup sels =
      (match selectFirst soup sels with
       | some e => pyStrip e.text
       | none => "Title not found") := by
  induction sels with
  | nil => rfl
  | cons s ss ih =>
    cases hs : soup.selectOneResult s <;>
      simp [titleGo, selectFirst, hs, ih]

/-- `selectFirst` finds nothing when no selector matches. -/
theorem selectFirst_none (soup : Soup) (sels : List String)
    (h : ∀ sel ∈ sels, soup.selectOneResult sel = none) :
    selectFirst soup sels = none := by
  induction sels with
  | nil => rfl
  | cons s ss ih =>
    simp only [selectFirst]
    rw [h s (by simp)]
    exact ih (fun sel hsel => h sel (by simp [hsel]))

/-- Script blocks without the transcript JSON fragment are skipped. -/
theorem scanScripts_skip (pres tail : List String)
    (hpre : ∀ s ∈ pres, hasTranscriptJson s.data = false) :
    scanScripts (pres ++ tail) = scanScripts tail := by
  induction pres with
  | nil => rfl
  | cons a as ih =>
    have ha := hpre a (by simp)
    simp only [List.cons_append, scanScripts, ha]
    exact ih (fun s hs => hpre s (by simp [hs]))

/-- `Char.ofNat` on a scalar below the surrogate range keeps its value. -/
theorem toNat_ofNat_small (n : Nat) (h : n < 55296) :
    (Char.ofNat n).toNat = n := by
  simp [Char.ofNat, Nat.isValidChar, h, Char.ofNatAux, Char.toNat,
    UInt32.toNat, BitVec.toNat_ofNatLt]

/-- Value of `lcChar` on an upper-case ASCII letter. -/
theorem lcChar_toNat (c : Char) (h : 65 ≤ c.toNat ∧ c.toNat ≤ 90) :
    (lcChar c).toNat = c.toNat + 32 := by
  unfold lcChar
  rw [if_pos h]
  exact toNat_ofNat_small _ (by omega)

/-- `lcChar` fixes characters outside the upper-case ASCII range. -/
theorem lcChar_eq_self (c : Char) (h : ¬ (65 ≤ c.toNat ∧ c.toNat ≤ 90)) :
    lcChar c = c := by
  unfold lcChar
  rw [if_neg h]

/-- ASCII lower-casing is idempotent. -/
theorem lcChar_lcChar (c : Char) : lcChar (lcChar c) = lcChar c := by
  by_cases h : 65 ≤ c.toNat ∧ c.toNat ≤ 90
  · exact lcChar_eq_self _ (by have := lcChar_toNat c h; omega)
  · rw [lcChar_eq_self c h]
    exact lcChar_eq_self c h

/-- Lower-casing does not create or destroy whitespace. -/
theorem isPyWs_lcChar (c : Char) : isPyWs (lcChar c) = isPyWs c := by
  by_cases h : 65 ≤ c.toNat ∧ c.toNat ≤ 90
  · have ht := lcChar_toNat c h
    unfold isPyWs
    rw [ht]
    have h1 : ¬ (c.toNat + 32 = 32 ∨ c.toNat + 32 = 9 ∨ c.toNat + 32 = 10 ∨
        c.toNat + 32 = 13 ∨ c.toNat + 32 = 11 ∨ c.toNat + 32 = 12) := by omega
    have h2 : ¬ (c.toNat = 32 ∨ c.toNat = 9 ∨ c.toNat = 10 ∨
        c.toNat = 13 ∨ c.toNat = 11 ∨ c.toNat = 12) := by omega
    rw [decide_eq_false h1, decide_eq_false h2]
  · rw [lcChar_eq_self c h]

/-- `dropWhile` for whitespace commutes with lower-casing. -/
theorem dropWhile_map_pyws (l : List Char) :
    (l.map lcChar).dropWhile isPyWs = (l.dropWhile isPyWs).map lcChar := by
  rw [List.dropWhile_map]
  have he : isPyWs ∘ lcChar = isPyWs := funext isPyWs_lcChar
  rw [he]

/-- Stripping commutes with lower-casing. -/
theorem pyStrip_pyLower (s : String) :
    pyStrip (pyLower s) = pyLower (pyStrip s) := by
  show String.mk _ = String.mk _
  rw [show (pyLower s).data = s.data.map lcChar from rfl]
  rw [dropWhile_map_pyws, ← List.map_reverse, dropWhile_map_pyws,
    ← List.map_reverse]
  rfl

/-- ASCII lower-casing of strings is idempotent. -/
theorem pyLower_pyLower (s : String) : pyLower (pyLower s) = pyLower s := by
  show String.mk _ = String.mk _
  rw [show (pyLower s).data = s.data.map lcChar from rfl, List.map_map,
    show lcChar ∘ lcChar = lcChar from funext lcChar_lcChar]

/-- Lower-casing preserves the character count. -/
theorem length_pyLower (s : String) : (pyLower s).length = s.length := by
  show (s.data.map lcChar).length = s.data.length
  exact List.length_map s.data lcChar

/-- Lower-casing preserves emptiness. -/
theorem pyLower_empty_iff (s : String) : pyLower s = "" ↔ s = "" := by
  constructor
  · intro h
    have : s.data.map lcChar = [] := congrArg String.data h
    have : s.data = [] := List.map_eq_nil_iff.mp this
    exact congrArg String.mk this
  · intro h
    rw [h]
    rfl

/-! ## Claims -/

/-- C1: the cascade evaluates its six strategies in the fixed order, a
strategy's result is accepted as final exactly when its length exceeds
500 characters (500 or fewer is passed over), and once a result is
accepted nothing after it matters: the cascade equals the first
over-threshold candidate of the ordered strategy results (else the
fallback), and the first over-threshold candidate after any
under-threshold prefix is returned regardless of what follows. -/
theorem cascade_gate_order (soup : Soup) (html : String) :
    extract_content soup html =
      (firstOver500 (strategyResults soup html)).getD (fallbackResult soup) ∧
    ∀ (pre post : List String) (r : String),
      (∀ c ∈ pre, ¬ 500 < c.length) → 500 < r.length →
      firstOver500 (pre ++ r :: post) = some r :=
  ⟨extract_content_eq soup html,
   fun pre post r h1 h2 => firstOver500_skip pre post r h1 h2⟩

/-- C1 witness: on a document with no matches the cascade falls through
all strategies to the sentinel, and a concrete over-threshold candidate
after an under-threshold one is accepted whatever follows. -/
theorem cascade_gate_order_witness :
    extract_content emptySoup "" = "Content extraction failed" ∧
    firstOver500 (["short"] ++ bigText :: ["post"]) = some bigText := by
  constructor
  · rw [(cascade_gate_order emptySoup "").1]
    decide
  · exact (cascade_gate_order emptySoup "").2 ["short"] ["post"] bigText
      (by decide) (by decide)

/-- C2 counterexample: a document whose only paragraph is 20 characters
or shorter defeats every strategy, the fallback join is empty, and the
cascade returns the empty string, not the sentinel. -/
theorem content_nonempty_cex :
    (∀ r ∈ strategyResults shortParaSoup "", ¬ 500 < r.length) ∧
    extract_content shortParaSoup "" = "" := by
  constructor
  · decide
  · decide

/-- C2 amended: when no strategy result exceeds the 500-character gate,
the cascade returns the sentinel only when the document has no paragraph
elements at all; when paragraph elements exist, it returns the join of
the over-20-character stripped paragraph texts even when this join is
the empty string. -/
theorem content_fallback_amended (soup : Soup) (html : String)
    (h : ∀ r ∈ strategyResults soup html, ¬ 500 < r.length) :
    extract_content soup html =
      if soup.allParagraphs.isEmpty then "Content extraction failed"
      else joinBlankLine (soup.allParagraphs.filterMap
        (fun p => let t := pyStrip p.text
                  if 20 < t.length then some t else none)) := by
  rw [extract_content_eq, firstOver500_none _ h]
  by_cases he : soup.allParagraphs.isEmpty <;>
    simp [fallbackResult, he, Option.getD]

/-- C2 amended witness: one short paragraph gives the empty string; no
paragraphs at all give the sentinel. -/
theorem content_fallback_amended_witness :
    extract_content shortParaSoup "" = "" ∧
    extract_content emptySoup "x" = "Content extraction failed" := by
  constructor
  · rw [content_fallback_amended shortParaSoup "" (by decide)]
    decide
  · rw [content_fallback_amended emptySoup "x" (by decide)]
    decide

/-- C3: when transcript-section marker elements are present and the
blank-line join of their stripped texts exceeds 500 characters, the
cascade returns exactly that join. -/
theorem transcript_sections_verbatim (soup : Soup) (html : String)
    (h1 : ¬ soup.transcriptSections.isEmpty)
    (h2 : 500 < (joinBlankLine
        (soup.transcriptSections.map (fun s => pyStrip s.text))).length) :
    extract_content soup html =
      joinBlankLine (soup.transcriptSections.map (fun s => pyStrip s.text)) := by
  have hs : extract_transcript_sections soup =
      joinBlankLine (soup.transcriptSections.map (fun s => pyStrip s.text)) := by
    unfold extract_transcript_sections
    rw [if_pos h1]
  simp only [extract_content]
  rw [hs, if_pos ⟨ne_empty_of_length_gt _ h2, h2⟩]

/-- C3 witness: a single 600-character transcript section is returned
verbatim by the cascade. -/
theorem transcript_sections_verbatim_witness :
    extract_content bigSectionSoup "" = joinBlankLine [pyStrip bigText] := by
  have h := transcript_sections_verbatim bigSectionSoup "" (by decide) (by decide)
  exact h

/-- C7: the cascade is a pure function of the parsed-document queries
and the raw markup; two invocations on equal inputs give equal output. -/
theorem cascade_deterministic (s1 s2 : Soup) (h1 h2 : String)
    (hs : s1 = s2) (hh : h1 = h2) :
    extract_content s1 h1 = extract_content s2 h2 := by
  rw [hs, hh]

/-- C7 witness: a concrete double invocation. -/
theorem cascade_deterministic_witness :
    extract_content bigSectionSoup "" = extract_content bigSectionSoup "" :=
  cascade_deterministic bigSectionSoup bigSectionSoup "" "" rfl rfl

/-- C8 counterexample: `h1` matches a whitespace-only element, so the
code returns the empty string, while the claimed behaviour (first
non-empty match) would return the `.title` element's text. -/
theorem extract_title_cex :
    extract_title titleCexSoup = "" ∧
    titleCexSoup.selectOneResult ".title" = some realTitleElem ∧
    extract_title_claim titleCexSoup = "Real Title" := by
  refine ⟨by decide, by decide, by decide⟩

/-- C8 amended: `extract_title` returns the stripped text of the first
selector match even when that stripped text is empty; the sentinel is
returned only when no selector matches at all. -/
theorem extract_title_amended (soup : Soup) :
    extract_title soup =
      (match selectFirst soup title_selectors with
       | some e => pyStrip e.text
       | none => "Title not found") ∧
    ((∀ sel ∈ title_selectors, soup.selectOneResult sel = none) →
      extract_title soup = "Title not found") := by
  constructor
  · exact titleGo_eq_selectFirst soup title_selectors
  · intro h
    show titleGo soup title_selectors = _
    rw [titleGo_eq_selectFirst soup title_selectors,
      selectFirst_none soup title_selectors h]

/-- C8 amended witness: a document with no matches yields the sentinel. -/
theorem extract_title_amended_witness :
    extract_title emptySoup = "Title not found" :=
  (extract_title_amended emptySoup).2 (fun _ _ => rfl)

/-- C10 counterexample: with one Q&A anchor whose parent is a `div` and
with no following siblings anywhere, the code returns the parent's own
text, while the claimed collection over the anchor's following siblings
is empty. -/
theorem qa_walk_cex :
    qaCexSoup.qaSections = [qaCexAnchor] ∧
    qaCexAnchor.anchorSiblings = [] ∧
    qaCollectClaim qaCexAnchor = [] ∧
    extract_transcript_sections qaCexSoup = "Question-and-Answer Session" := by
  refine ⟨rfl, rfl, rfl, by decide⟩

/-- C10 amended: when no transcript-section marker matches and a Q&A
anchor is found, the walk starts at the first anchor's parent and
includes the parent itself: the strategy joins the stripped texts of
every `div` or `section` among the parent followed by the parent's
following siblings, in document order. -/
theorem qa_walk_amended (soup : Soup) (a : Anchor) (rest : List Anchor)
    (h1 : soup.transcriptSections = [])
    (h2 : soup.qaSections = a :: rest) :
    extract_transcript_sections soup =
      (let parts := (a.parent :: a.parentSiblings).filterMap
          (fun e => if e.name = "div" ∨ e.name = "section"
                    then some (pyStrip e.text) else none)
       if ¬ parts.isEmpty then joinBlankLine parts else "") := by
  simp only [extract_transcript_sections, h1, h2]
  rfl

/-- C10 amended witness: the concrete Q&A document evaluates to the
parent's stripped text. -/
theorem qa_walk_amended_witness :
    extract_transcript_sections qaCexSoup = joinBlankLine [pyStrip qaParentElem.text] := by
  rw [qa_walk_amended qaCexSoup qaCexAnchor [] rfl rfl]
  decide

/-- C4: the speaker-pattern strategy returns the empty string when the
case-insensitive speaker regex has 10 or fewer matches in the raw
markup, and with 11 or more matches it returns the reconstructed lines
(both captures stripped) for every match, in document order, joined
with blank-line separators. -/
theorem speaker_threshold (html : String) :
    ((speakerFindAll html).length ≤ 10 →
      extract_transcript_pattern html = "") ∧
    (10 < (speakerFindAll html).length →
      extract_transcript_pattern html =
        joinBlankLine ((speakerFindAll html).map
          (fun m => pyStrip m.1 ++ ": " ++ pyStrip m.2))) := by
  constructor
  · intro h
    simp only [extract_transcript_pattern]
    rw [if_neg (fun hc => absurd hc.2 (by omega))]
  · intro h
    have hne : ¬ (speakerFindAll html).isEmpty := by
      intro he
      rw [List.isEmpty_iff.mp he] at h
      exact absurd h (by decide)
    simp only [extract_transcript_pattern]
    rw [if_pos ⟨hne, h⟩]

/-- C4 witness: exactly 10 concatenated speaker segments yield the empty
string; exactly 11 yield the 11-line joined transcript. -/
theorem speaker_threshold_witness :
    (speakerFindAll html10).length = 10 ∧
    extract_transcript_pattern html10 = "" ∧
    (speakerFindAll html11).length = 11 ∧
    extract_transcript_pattern html11 =
      joinBlankLine (List.replicate 11 speakerLine) := by
  refine ⟨by decide, (speaker_threshold html10).1 (by decide), by decide, ?_⟩
  rw [(speaker_threshold html11).2 (by decide)]
  decide

/-- C5: a container found by a container selector is skipped — the loop
moves on exactly as if the selector had not matched — precisely when its
full text contains the premium teaser phrase and has length under 100;
otherwise it is processed: its filtered paragraphs are joined when any
survive, and only an accepted container with no survivors lets the loop
continue. -/
theorem container_skip_iff (soup : Soup) (sel : String) (rest : List String)
    (c : Elem) (h : soup.selectOneResult sel = some c) :
    containersGo soup (sel :: rest) =
      if strContains c.text "Make the most of Premium" ∧ c.text.length < 100 then
        containersGo soup rest
      else if ¬ c.paragraphs.isEmpty ∧ ¬ (filterParas c.paragraphs).isEmpty then
        joinBlankLine (filterParas c.paragraphs)
      else containersGo soup rest := by
  simp only [containersGo, h]
  by_cases h1 : strContains c.text "Make the most of Premium" ∧ c.text.length < 100
  · rw [if_pos h1, if_pos h1]
  · rw [if_neg h1, if_neg h1]
    by_cases h2 : ¬ c.paragraphs.isEmpty
    · rw [if_pos h2]
      by_cases h3 : ¬ (filterParas c.paragraphs).isEmpty
      · rw [if_pos h3, if_pos ⟨h2, h3⟩]
      · rw [if_neg h3, if_neg (fun hc => h3 hc.2)]
    · rw [if_neg h2, if_neg (fun hc => h2 hc.1)]

/-- C5 witness: the 95-character teaser container is skipped and the
whole strategy yields nothing, while the over-100-character container
with the same phrase is accepted and its real paragraph survives. -/
theorem container_skip_iff_witness :
    containersGo soup95 (containerSel1 :: containerSelsRest) = "" ∧
    extract_from_content_containers soupLong = longParaText := by
  constructor
  · rw [container_skip_iff soup95 containerSel1 containerSelsRest teaser95
      (by decide)]
    decide
  · show containersGo soupLong container_selectors = longParaText
    rw [show container_selectors = containerSel1 :: containerSelsRest from rfl,
      container_skip_iff soupLong containerSel1 containerSelsRest teaserLong
        (by decide)]
    decide

/-- C6: a paragraph survives the content-container filter exactly when
its stripped text exceeds 20 characters and its lower-cased stripped
text contains none of the seven denylist substrings; the test is
case-insensitive (invariant under lower-casing the paragraph), so the
upper-case and lower-case boilerplate variants are excluded alike. -/
theorem para_filter_charact :
    (∀ p : String, paraKeep p = true ↔
      (20 < (pyStrip p).length ∧
        ∀ x ∈ denylist, strContains (pyLower (pyStrip p)) x = false)) ∧
    (∀ p : String, paraKeep (pyLower p) = paraKeep p) ∧
    paraKeep "A sufficiently long paragraph naming SEEKING ALPHA itself" = false ∧
    paraKeep "A sufficiently long paragraph naming seeking alpha itself" = false := by
  refine ⟨?_, ?_, by decide, by decide⟩
  · intro p
    simp only [paraKeep, Bool.and_eq_true, Bool.not_eq_true',
      decide_eq_true_eq, decide_eq_false_iff_not, List.any_eq_false]
    constructor
    · intro h
      exact ⟨h.1.2, fun x hx => Bool.eq_false_iff.mpr (h.2 x hx)⟩
    · intro h
      refine ⟨⟨?_, h.1⟩, fun x hx => Bool.eq_false_iff.mp (h.2 x hx)⟩
      intro he
      rw [he] at h
      exact absurd h.1 (by decide)
  · intro p
    simp only [paraKeep, pyStrip_pyLower, pyLower_pyLower, length_pyLower,
      pyLower_empty_iff]

/-- C9: for the first script block whose text matches the transcript
JSON-fragment pattern, the strategy returns the unescaped capture of the
`content` pattern when one is present in that block, else the unescaped
capture of the `text` pattern when present, with only escaped quotes and
escaped newlines rewritten; such a capture ends the scan regardless of
later blocks. -/
theorem scripts_first_block (html : String) (pres : List String)
    (scr : String) (rest : List String)
    (hsplit : scriptFindAll html = pres ++ scr :: rest)
    (hpre : ∀ s ∈ pres, hasTranscriptJson s.data = false)
    (hscr : hasTranscriptJson scr.data = true) :
    (∀ v, kvSearch contentKeyLit scr.data = some v →
      extract_from_scripts html = unescapeJson v) ∧
    (kvSearch contentKeyLit scr.data = none →
      ∀ v, kvSearch textKeyLit scr.data = some v →
        extract_from_scripts html = unescapeJson v) := by
  have hmain : extract_from_scripts html = scanScripts (scr :: rest) := by
    show scanScripts (scriptFindAll html) = _
    rw [hsplit]
    exact scanScripts_skip pres (scr :: rest) hpre
  constructor
  · intro v hv
    rw [hmain]
    simp [scanScripts, hscr, hv]
  · intro hnone v hv
    rw [hmain]
    simp [scanScripts, hscr, hnone, hv]

/-- C9 witness: a concrete document with one transcript script block
whose content value uses both handled escapes. -/
theorem scripts_first_block_witness :
    extract_from_scripts scriptHtml = "Line1\nHe said \\" := by
  have h := (scripts_first_block scriptHtml [] scrInner []
    (by decide) (by intro s hs; cases hs) (by decide)).1
    "Line1\\nHe said \\" (by decide)
  rw [h]
  decide

end SA
